import Mathlib

/-!
Verification of the stomp-template-send connection relay

Shallow embedding of the connection-relay subsystem:

* `src/stomp-local-agent/background.js` — the broker: `isAllowedUrl`,
  `toWsUrl`, `reconnectDelay`, `WSConnection` (per-connection state machine
  with reconnect backoff and heartbeat), `WebSocketManager` (registry), and
  the per-port message handler with its `activeConnectionId`.
* `src/app/lib/AgentWebSocket.ts` — the client adapter: a WebSocket-shaped
  state machine speaking the relay protocol over window messages.

Methods that mutate objects in place in the source are embedded as pure
functions from a state record to a pair of new state and the list of
messages posted through the owning port (plus, where relevant, the list of
transport effects such as creating the real socket).  Timers are embedded
as explicit fields (`heartbeatTimer : Bool`, `reconnectTimer : Option Nat`);
the firing of a scheduled reconnect timer is an explicit step.
-/

namespace StompRelay

-- ---------------------------------------------------------------------------
-- Config (background.js lines 87-98)
-- ---------------------------------------------------------------------------

def ALLOWED_ORIGINS : List String :=
  ["http://localhost", "http://127.0.0.1", "ws://localhost", "ws://127.0.0.1"]

def HEARTBEAT_INTERVAL_MS : Nat := 20000

def MAX_RECONNECT_ATTEMPTS : Nat := 10

def MAX_RECONNECT_DELAY_MS : Nat := 30000

-- ---------------------------------------------------------------------------
-- URL model
--
-- `isAllowedUrl` in background.js calls the platform's WHATWG `new URL(url)`
-- and reads `parsed.protocol` (scheme with trailing colon, lowercased) and
-- `parsed.hostname` (host without port, lowercased).  We embed the fragment
-- of the WHATWG parser relevant to such URLs: scheme parsing, the special
-- schemes' slash handling, authority splitting (userinfo / host / port),
-- port validation, and case normalisation.  Unicode host mapping and
-- percent-decoding are outside the model (the inputs here are ASCII).
-- ---------------------------------------------------------------------------

def isSchemeChar (c : Char) : Bool :=
  c.isAlphanum || c == '+' || c == '-' || c == '.'

/-- Split `scheme ':' rest` into `(scheme, rest)`; `none` when no colon is
reached over scheme-characters. -/
def splitAtColon : List Char → Option (List Char × List Char)
  | [] => none
  | c :: rest =>
    if c == ':' then some ([], rest)
    else if isSchemeChar c then
      match splitAtColon rest with
      | some (s, r) => some (c :: s, r)
      | none => none
    else none

def SPECIAL_SCHEMES : List String := ["http", "https", "ws", "wss", "ftp", "file"]

/-- After `scheme:` a special-scheme URL skips any run of slashes before the
authority (WHATWG treats `\` like `/` for special schemes). -/
def dropSlashes : List Char → List Char
  | [] => []
  | c :: rest => if c == '/' || c == '\\' then dropSlashes rest else c :: rest

/-- The authority runs until a path, query or fragment delimiter. -/
def takeAuthority (special : Bool) : List Char → List Char
  | [] => []
  | c :: rest =>
    if c == '/' || c == '?' || c == '#' || (special && c == '\\') then []
    else c :: takeAuthority special rest

/-- Drop the userinfo: keep only what follows the last `@`. -/
def afterLastAt (l : List Char) : List Char :=
  (l.reverse.takeWhile (fun c => c != '@')).reverse

/-- Characters that make a (non-bracketed) host invalid. -/
def forbiddenHostChar (c : Char) : Bool :=
  c == ' ' || c == '#' || c == '%' || c == '/' || c == ':' || c == '?' ||
  c == '@' || c == '[' || c == ']' || c == '\\' || c == '<' || c == '>'

def portVal (l : List Char) : Nat :=
  l.foldl (fun n c => n * 10 + (c.toNat - 48)) 0

def validPort (l : List Char) : Bool :=
  l.all (fun c => c.isDigit) && (l.isEmpty || portVal l ≤ 65535)

/-- Split an authority (userinfo already removed) into host and port. -/
def splitHostPort (l : List Char) : Option (List Char × List Char) :=
  match l with
  | '[' :: rest =>
    let inside := rest.takeWhile (fun c => c != ']')
    match rest.dropWhile (fun c => c != ']') with
    | ']' :: tail =>
      match tail with
      | [] => some ('[' :: inside ++ [']'], [])
      | ':' :: port => some ('[' :: inside ++ [']'], port)
      | _ => none
    | _ => none
  | _ =>
    let host := l.takeWhile (fun c => c != ':')
    let port := (l.dropWhile (fun c => c != ':')).drop 1
    if host.all (fun c => !forbiddenHostChar c) then some (host, port) else none

/-- The two components of a parsed URL that `isAllowedUrl` reads. -/
structure JSURL where
  protocol : String
  hostname : String
deriving DecidableEq, Repr

def mkJSURL (scheme host : List Char) : JSURL :=
  { protocol := String.mk (scheme.map Char.toLower ++ [':'])
    hostname := String.mk (host.map Char.toLower) }

/-- Model of `new URL(url)` restricted to `.protocol` / `.hostname`;
`none` models the constructor throwing. -/
def parseURL (url : String) : Option JSURL :=
  match splitAtColon url.data with
  | none => none
  | some (schemeChars, rest) =>
    match schemeChars with
    | [] => none
    | c0 :: _ =>
      if !c0.isAlpha then none
      else
        let scheme := schemeChars.map Char.toLower
        if SPECIAL_SCHEMES.contains (String.mk scheme) then
          let auth := afterLastAt (takeAuthority true (dropSlashes rest))
          match splitHostPort auth with
          | none => none
          | some (host, port) =>
            if host.isEmpty then none
            else if !validPort port then none
            else some (mkJSURL schemeChars host)
        else
          match rest with
          | '/' :: '/' :: rest2 =>
            let auth := afterLastAt (takeAuthority false rest2)
            match splitHostPort auth with
            | none => none
            | some (host, port) =>
              if !validPort port then none
              else some (mkJSURL schemeChars host)
          | _ => some (mkJSURL schemeChars [])

def strStartsWith (s pre : String) : Bool :=
  pre.data.isPrefixOf s.data

-- ---------------------------------------------------------------------------
-- Helpers (background.js lines 104-124)
-- ---------------------------------------------------------------------------

/-- The check `isAllowedUrl`, parameterised by the allow-list it closes over. -/
def isAllowedUrlWith (allowed : List String) (url : String) : Bool :=
  match parseURL url with
  | some parsed =>
    let origin := parsed.protocol ++ "//" ++ parsed.hostname
    allowed.any (fun a => origin == a || strStartsWith origin (a ++ ":"))
  | none => false

def isAllowedUrl (url : String) : Bool :=
  isAllowedUrlWith ALLOWED_ORIGINS url

def strReplacePrefix (s pre new : String) : String :=
  String.mk (new.data ++ s.data.drop pre.data.length)

def toWsUrl (url : String) : String :=
  if strStartsWith url "https://" then strReplacePrefix url "https://" "wss://"
  else if strStartsWith url "http://" then strReplacePrefix url "http://" "ws://"
  else url

def reconnectDelay (attempt : Nat) : Nat :=
  min (1000 * 2 ^ attempt) MAX_RECONNECT_DELAY_MS

-- ---------------------------------------------------------------------------
-- WSConnection (background.js lines 130-356)
--
-- Port messages posted via `this._send` become `BgEvent`s; operations on the
-- real socket become `Effect`s.  The socket object is embedded as a `Bool`
-- (present or null); its readyState is tracked by `status` (the code sets
-- `status` in lockstep with the socket callbacks).  Transport callbacks
-- (`onopen` / `onmessage` / `onerror` / `onclose`) are separate step
-- functions, applied when the transport reports the corresponding event on
-- the connection that owns the live socket.
-- ---------------------------------------------------------------------------

inductive ConnStatus
  | IDLE | CONNECTING | OPEN | CLOSING | CLOSED | RECONNECTING
deriving DecidableEq, Repr

inductive Payload
  | text (s : String)
  | binary (bytes : List Nat)
deriving DecidableEq, Repr

/-- Messages the background posts to the owning port. -/
inductive BgEvent
  | wsEvOpen
  | wsEvMessage (data : Payload)
  | wsEvError (error : String)
  | wsEvClose (code : Nat) (reason : String) (wasClean : Bool)
  | wsEvReconnecting (attempt delay maxAttempts : Nat)
  | wsEvReconnected
  | pong
deriving DecidableEq, Repr

/-- Operations performed on the real transport. -/
inductive Effect
  | createSocket (url : String)
  | closeSocket
  | socketSend (data : Payload)
deriving DecidableEq, Repr

structure WSConnection where
  id : String
  url : String
  port : Nat
  socket : Bool
  status : ConnStatus
  reconnectAttempts : Nat
  maxReconnect : Nat
  heartbeatTimer : Bool
  reconnectTimer : Option Nat
  shouldReconnect : Bool
deriving DecidableEq, Repr

/-- The constructor (background.js lines 136-147). -/
def WSConnection.init (id url : String) (port : Nat) : WSConnection :=
  { id := id, url := url, port := port, socket := false
    status := ConnStatus.IDLE, reconnectAttempts := 0
    maxReconnect := MAX_RECONNECT_ATTEMPTS, heartbeatTimer := false
    reconnectTimer := none, shouldReconnect := true }

/-- Method `connect()` (background.js lines 151-166): close any existing socket,
set CONNECTING, create the socket.  The handlers it installs are the
`on…` steps below. -/
def WSConnection.connectStep (c : WSConnection) :
    WSConnection × List BgEvent × List Effect :=
  let closeEff := if c.socket then [Effect.closeSocket] else []
  ({ c with socket := true, status := ConnStatus.CONNECTING },
   [], closeEff ++ [Effect.createSocket (toWsUrl c.url)])

def maxReconnectReason (n : Nat) : String :=
  "Max reconnect attempts (" ++ toString n ++ ") reached"

/-- Method `reconnect()` (background.js lines 279-309). -/
def WSConnection.reconnectStep (c : WSConnection) : WSConnection × List BgEvent :=
  if c.reconnectAttempts ≥ c.maxReconnect then
    ({ c with status := ConnStatus.CLOSED },
     [BgEvent.wsEvClose 1006 (maxReconnectReason c.maxReconnect) false])
  else
    let n := c.reconnectAttempts + 1
    let d := reconnectDelay n
    ({ c with reconnectAttempts := n, status := ConnStatus.RECONNECTING
              reconnectTimer := some d },
     [BgEvent.wsEvReconnecting n d c.maxReconnect])

/-- Handler `socket.onopen` (background.js lines 168-181). -/
def WSConnection.onOpen (c : WSConnection) : WSConnection × List BgEvent :=
  let c := { c with status := ConnStatus.OPEN, heartbeatTimer := true }
  if c.reconnectAttempts > 0 then
    ({ c with reconnectAttempts := 0 }, [BgEvent.wsEvReconnected])
  else
    (c, [BgEvent.wsEvOpen])

/-- Handler `socket.onmessage` (background.js lines 183-191). -/
def WSConnection.onMessage (c : WSConnection) (data : Payload) :
    WSConnection × List BgEvent :=
  (c, [BgEvent.wsEvMessage data])

/-- Handler `socket.onerror` (background.js lines 193-199). -/
def WSConnection.onError (c : WSConnection) : WSConnection × List BgEvent :=
  (c, [BgEvent.wsEvError "WebSocket error occurred"])

/-- Handler `socket.onclose` (background.js lines 201-219). -/
def WSConnection.onClose (c : WSConnection) (code : Nat) (reason : String)
    (wasClean : Bool) : WSConnection × List BgEvent :=
  let c := { c with heartbeatTimer := false, socket := false }
  if c.shouldReconnect && !wasClean then
    c.reconnectStep
  else
    ({ c with status := ConnStatus.CLOSED },
     [BgEvent.wsEvClose code reason wasClean])

/-- The scheduled reconnect timer firing (background.js lines 305-308). -/
def WSConnection.fireReconnectTimer (c : WSConnection) :
    WSConnection × List BgEvent × List Effect :=
  WSConnection.connectStep { c with reconnectTimer := none }

/-- Method `send(data)` (background.js lines 226-236). -/
def WSConnection.sendStep (c : WSConnection) (data : Payload) :
    WSConnection × List BgEvent × List Effect :=
  if c.socket && c.status == ConnStatus.OPEN then
    (c, [], [Effect.socketSend data])
  else
    (c, [BgEvent.wsEvError "WebSocket is not open"], [])

/-- Method `close(code, reason)` (background.js lines 241-261): user-initiated,
suppresses reconnect, always emits one clean close event. -/
def WSConnection.closeStep (c : WSConnection) (code : Nat) (reason : String) :
    WSConnection × List BgEvent × List Effect :=
  let c := { c with shouldReconnect := false, heartbeatTimer := false
                    reconnectTimer := none }
  let eff := if c.socket then [Effect.closeSocket] else []
  ({ c with socket := false, status := ConnStatus.CLOSED },
   [BgEvent.wsEvClose code reason true], eff)

/-- Method `destroy()` (background.js lines 266-275): force teardown, no events. -/
def WSConnection.destroyStep (c : WSConnection) :
    WSConnection × List BgEvent × List Effect :=
  let eff := if c.socket then [Effect.closeSocket] else []
  ({ c with shouldReconnect := false, heartbeatTimer := false
            reconnectTimer := none, socket := false
            status := ConnStatus.CLOSED },
   [], eff)

-- ---------------------------------------------------------------------------
-- Failure scenarios: consecutive abnormal closes
-- ---------------------------------------------------------------------------

/-- A fresh connection whose first transport attempt has just succeeded. -/
def openedConn (id url : String) (port : Nat) : WSConnection :=
  ((WSConnection.init id url port).connectStep.1.onOpen).1

/-- One abnormal transport close (code 1006, not clean), followed by the
scheduled retry timer firing if one was armed. -/
def failCycle (c : WSConnection) : WSConnection × List BgEvent :=
  let (c1, evs) := c.onClose 1006 "" false
  match c1.reconnectTimer with
  | some _ =>
    let (c2, evs2, _) := c1.fireReconnectTimer
    (c2, evs ++ evs2)
  | none => (c1, evs)

/-- Iterate `n` consecutive abnormal closes, each followed by its retry (if any). -/
def failCycles : Nat → WSConnection → WSConnection × List BgEvent
  | 0, c => (c, [])
  | n + 1, c =>
    let (c1, e1) := failCycle c
    let (c2, e2) := failCycles n c1
    (c2, e1 ++ e2)

def isCloseEv : BgEvent → Bool
  | BgEvent.wsEvClose _ _ _ => true
  | _ => false

-- ---------------------------------------------------------------------------
-- WebSocketManager (background.js lines 362-423)
--
-- `this.connections` is a JS `Map`; embedded as an association list with
-- `Map.set` semantics (replace in place, append when absent) and
-- `Map.delete` semantics (remove the entry).  The keepalive chrome.alarm is
-- the `keepaliveAlarm` flag.
-- ---------------------------------------------------------------------------

def setConn : List (String × WSConnection) → String → WSConnection →
    List (String × WSConnection)
  | [], id, c => [(id, c)]
  | (k, v) :: rest, id, c =>
    if k = id then (id, c) :: rest else (k, v) :: setConn rest id c

def delConn : List (String × WSConnection) → String →
    List (String × WSConnection)
  | [], _ => []
  | (k, v) :: rest, id =>
    if k = id then rest else (k, v) :: delConn rest id

structure WebSocketManager where
  connections : List (String × WSConnection)
  keepaliveAlarm : Bool
deriving DecidableEq, Repr

def WebSocketManager.empty : WebSocketManager :=
  { connections := [], keepaliveAlarm := false }

/-- Key uniqueness of the registry (automatic for a JS `Map`). -/
abbrev keysNodup (m : WebSocketManager) : Prop :=
  (m.connections.map Prod.fst).Nodup

/-- Method `connect(id, url, port)` (background.js lines 368-382).  Returns the new
manager, the connections destroyed by replace-by-id, the events posted and
the transport effects. -/
def WebSocketManager.connect (m : WebSocketManager) (id url : String)
    (port : Nat) :
    WebSocketManager × List WSConnection × List BgEvent × List Effect :=
  let (destroyed, destroyEffs) :=
    match m.connections.lookup id with
    | some old =>
      let (oldD, _, effs) := old.destroyStep
      ([oldD], effs)
    | none => ([], [])
  let (conn, evs, effs) := (WSConnection.init id url port).connectStep
  let conns := setConn m.connections id conn
  ({ connections := conns
     keepaliveAlarm := if conns.length > 0 then true else m.keepaliveAlarm },
   destroyed, evs, destroyEffs ++ effs)

/-- Method `send(id, data)` (background.js lines 384-389). -/
def WebSocketManager.send (m : WebSocketManager) (id : String)
    (data : Payload) : WebSocketManager × List BgEvent × List Effect :=
  match m.connections.lookup id with
  | some conn =>
    let r := conn.sendStep data
    ({ m with connections := setConn m.connections id r.1 }, r.2.1, r.2.2)
  | none => (m, [], [])

/-- Method `disconnect(id, code, reason)` (background.js lines 391-398). -/
def WebSocketManager.disconnect (m : WebSocketManager) (id : String)
    (code : Nat) (reason : String) :
    WebSocketManager × List BgEvent × List Effect :=
  match m.connections.lookup id with
  | some conn =>
    let (_, evs, effs) := conn.closeStep code reason
    let conns := delConn m.connections id
    ({ connections := conns
       keepaliveAlarm := if conns.length = 0 then false else m.keepaliveAlarm },
     evs, effs)
  | none => (m, [], [])

/-- The loop body of `destroyByPort` (background.js lines 400-408): destroy
and drop every entry bound to `p`, collecting whatever events and effects
the destroyed connections produce. -/
def destroyByPortList : List (String × WSConnection) → Nat →
    List (String × WSConnection) × List WSConnection × List BgEvent × List Effect
  | [], _ => ([], [], [], [])
  | (k, v) :: rest, p =>
    let (keep, destroyed, evs, effs) := destroyByPortList rest p
    if v.port = p then
      let (d, dEvs, dEffs) := v.destroyStep
      (keep, d :: destroyed, dEvs ++ evs, dEffs ++ effs)
    else
      ((k, v) :: keep, destroyed, evs, effs)

/-- Method `destroyByPort(port)` (background.js lines 400-408). -/
def WebSocketManager.destroyByPort (m : WebSocketManager) (p : Nat) :
    WebSocketManager × List WSConnection × List BgEvent × List Effect :=
  let (keep, destroyed, evs, effs) := destroyByPortList m.connections p
  ({ connections := keep
     keepaliveAlarm := if keep.length = 0 then false else m.keepaliveAlarm },
   destroyed, evs, effs)

/-- The transport reporting `onopen` for the connection registered at `id`
(the socket callbacks close over their connection object). -/
def WebSocketManager.transportOpen (m : WebSocketManager) (id : String) :
    WebSocketManager × List BgEvent :=
  match m.connections.lookup id with
  | some conn =>
    let (conn2, evs) := conn.onOpen
    ({ m with connections := setConn m.connections id conn2 }, evs)
  | none => (m, [])

-- ---------------------------------------------------------------------------
-- Per-port message handler (background.js lines 454-567)
--
-- JS truthiness: `x || d` replaces `undefined`, `""` and `0` by the
-- default, so the embeddings of `connectionId || …`, `msg.code || 1000`
-- and `msg.reason || ""` treat the empty string and zero as absent.
-- ---------------------------------------------------------------------------

def jsOrString (v : Option String) (d : String) : String :=
  match v with
  | some s => if s = "" then d else s
  | none => d

def jsOrNat (v : Option Nat) (d : Nat) : Nat :=
  match v with
  | some n => if n = 0 then d else n
  | none => d

/-- Relay-protocol requests arriving on a port (HTTP_REQUEST is outside the
relay core). -/
inductive PortMsg
  | ping
  | wsOpenReq (url : String) (connectionId : Option String)
  | wsSendReq (data : Payload)
  | wsCloseReq (code : Option Nat) (reason : Option String)
deriving DecidableEq, Repr

structure PortSession where
  manager : WebSocketManager
  activeConnectionId : Option String
  portId : Nat
  now : Nat
deriving DecidableEq, Repr

def PortSession.fresh (portId : Nat) : PortSession :=
  { manager := WebSocketManager.empty, activeConnectionId := none
    portId := portId, now := 0 }

/-- The `port.onMessage` listener (background.js lines 461-510).  Returns the
new session, the messages posted back on the port, the transport effects
and the connections destroyed by replace-by-id. -/
def handlePortMsg (s : PortSession) (msg : PortMsg) :
    PortSession × List BgEvent × List Effect × List WSConnection :=
  match msg with
  | PortMsg.ping => (s, [BgEvent.pong], [], [])
  | PortMsg.wsOpenReq url connId =>
    if !isAllowedUrl url then
      (s, [BgEvent.wsEvError
            ("URL not allowed: " ++ url ++ ". Only localhost URLs are permitted.")],
       [], [])
    else
      let active := jsOrString connId ("stomp-local-agent-" ++ toString s.now)
      let r := s.manager.connect active url s.portId
      ({ s with manager := r.1, activeConnectionId := some active },
       r.2.2.1, r.2.2.2, r.2.1)
  | PortMsg.wsSendReq data =>
    match s.activeConnectionId with
    | some id =>
      let r := s.manager.send id data
      ({ s with manager := r.1 }, r.2.1, r.2.2, [])
    | none => (s, [BgEvent.wsEvError "No active connection"], [], [])
  | PortMsg.wsCloseReq code reason =>
    match s.activeConnectionId with
    | some id =>
      let r := s.manager.disconnect id (jsOrNat code 1000) (jsOrString reason "")
      ({ s with manager := r.1, activeConnectionId := none }, r.2.1, r.2.2, [])
    | none => (s, [], [], [])

/-- Run a list of port messages; `now` advances by one per message (the
model of `Date.now()` increasing). -/
def runPort (s : PortSession) : List PortMsg → PortSession × List BgEvent × List Effect
  | [] => (s, [], [])
  | msg :: rest =>
    let r := handlePortMsg s msg
    let r2 := runPort { r.1 with now := r.1.now + 1 } rest
    (r2.1, r.2.1 ++ r2.2.1, r.2.2.1 ++ r2.2.2)

/-- The `activeConnectionId` update logic alone, as a function of the
message list: the id of the most recent allowed WS_OPEN, cleared by
WS_CLOSE. -/
def activeIdAfter (a : Option String) (now : Nat) : List PortMsg → Option String
  | [] => a
  | msg :: rest =>
    match msg with
    | PortMsg.wsOpenReq url cid =>
      if !isAllowedUrl url then activeIdAfter a (now + 1) rest
      else
        activeIdAfter
          (some (jsOrString cid ("stomp-local-agent-" ++ toString now)))
          (now + 1) rest
    | PortMsg.wsCloseReq _ _ =>
      match a with
      | some _ => activeIdAfter none (now + 1) rest
      | none => activeIdAfter none (now + 1) rest
    | _ => activeIdAfter a (now + 1) rest

-- ---------------------------------------------------------------------------
-- AgentWebSocket (src/app/lib/AgentWebSocket.ts)
--
-- The adapter's local mirrored state: `readyState` uses the WebSocket
-- constants CONNECTING=0, OPEN=1, CLOSING=2, CLOSED=3.  `handlerActive`
-- embeds whether the window-message listener installed by the constructor
-- is still registered (`cleanup()` removes it).  Outbound `window.postMessage`
-- calls become `ClientMsg`s; inbound window messages become `InEvent`s; the
-- invocation of an `on…` callback becomes a `Callback`.
-- ---------------------------------------------------------------------------

structure AgentWebSocket where
  readyState : Nat
  connectionId : String
  url : String
  handlerActive : Bool
deriving DecidableEq, Repr

/-- Requests the adapter posts to the window (relayed to the broker). -/
inductive ClientMsg
  | wsOpenMsg (connectionId url : String)
  | wsSendMsg (connectionId : String) (data : Payload)
  | wsCloseMsg (connectionId : String) (code : Nat) (reason : String)
deriving DecidableEq, Repr

/-- The constructor (AgentWebSocket.ts lines 40-100). -/
def AgentWebSocket.init (url cid : String) : AgentWebSocket × List ClientMsg :=
  ({ readyState := 0, connectionId := cid, url := url, handlerActive := true },
   [ClientMsg.wsOpenMsg cid url])

/-- Method `send(data)` (AgentWebSocket.ts lines 102-118): throws an
InvalidStateError DOMException unless the local state is OPEN. -/
def AgentWebSocket.send (ws : AgentWebSocket) (data : Payload) :
    Except String (List ClientMsg) :=
  if ws.readyState ≠ 1 then
    Except.error "InvalidStateError"
  else
    Except.ok [ClientMsg.wsSendMsg ws.connectionId data]

/-- Method `close(code?, reason?)` (AgentWebSocket.ts lines 120-136). -/
def AgentWebSocket.close (ws : AgentWebSocket) (code : Option Nat)
    (reason : Option String) : AgentWebSocket × List ClientMsg :=
  if ws.readyState = 3 ∨ ws.readyState = 2 then
    (ws, [])
  else
    ({ ws with readyState := 2 },
     [ClientMsg.wsCloseMsg ws.connectionId (jsOrNat code 1000)
        (jsOrString reason "")])

/-- The body of a relayed broker event, with the optional fields the close
handler defaults (`data.code || 1000`, `data.reason || ''`,
`data.wasClean ?? true`); `other` is any window message of a type the
switch ignores. -/
inductive InEventType
  | evOpen
  | evMessage (data : Payload)
  | evError
  | evClose (code : Option Nat) (reason : Option String) (wasClean : Option Bool)
  | other
deriving DecidableEq, Repr

structure InEvent where
  connectionId : String
  body : InEventType
deriving DecidableEq, Repr

/-- A callback invocation at the client boundary. -/
inductive Callback
  | cbOpen
  | cbMessage (data : Payload)
  | cbError
  | cbClose (code : Nat) (reason : String) (wasClean : Bool)
deriving DecidableEq, Repr

def isCloseCb : Callback → Bool
  | Callback.cbClose _ _ _ => true
  | _ => false

/-- The window-message handler installed by the constructor
(AgentWebSocket.ts lines 46-87): ignores events once the listener was
removed or when the connection-id does not match; on WS_EVENT_CLOSE it
sets CLOSED, removes the listener (`cleanup()`), then fires `onclose`. -/
def AgentWebSocket.handleEvent (ws : AgentWebSocket) (ev : InEvent) :
    AgentWebSocket × List Callback :=
  if !ws.handlerActive then (ws, [])
  else if ev.connectionId ≠ ws.connectionId then (ws, [])
  else
    match ev.body with
    | InEventType.evOpen => ({ ws with readyState := 1 }, [Callback.cbOpen])
    | InEventType.evMessage d => (ws, [Callback.cbMessage d])
    | InEventType.evError => (ws, [Callback.cbError])
    | InEventType.evClose c r w =>
      ({ ws with readyState := 3, handlerActive := false },
       [Callback.cbClose (jsOrNat c 1000) (jsOrString r "") (w.getD true)])
    | InEventType.other => (ws, [])

/-- Deliver a stream of window messages to the adapter, collecting the
callback invocations in order. -/
def deliverEvents (ws : AgentWebSocket) :
    List InEvent → AgentWebSocket × List Callback
  | [] => (ws, [])
  | ev :: rest =>
    let (ws1, cbs) := ws.handleEvent ev
    let (ws2, more) := deliverEvents ws1 rest
    (ws2, cbs ++ more)

/-- No callback is ever invoked after a close callback. -/
def closeIsLast : List Callback → Bool
  | [] => true
  | c :: rest => (!isCloseCb c || rest.isEmpty) && closeIsLast rest

-- ---------------------------------------------------------------------------
-- Derived states used by the theorems
-- ---------------------------------------------------------------------------

/-- The connection state between the `k`-th failed retry being launched and
its outcome: CONNECTING with `k` accumulated attempts. -/
def connAt (id url : String) (p k : Nat) : WSConnection :=
  { id := id, url := url, port := p, socket := true
    status := ConnStatus.CONNECTING, reconnectAttempts := k
    maxReconnect := MAX_RECONNECT_ATTEMPTS, heartbeatTimer := false
    reconnectTimer := none, shouldReconnect := true }

/-- Concrete registry used by the C8 witness: one connection `"a"`. -/
def m0 : WebSocketManager :=
  (WebSocketManager.empty.connect "a" "ws://localhost:1" 0).1

-- Concrete two-open scenario on a single port (C10)

def scenMsgs : List PortMsg :=
  [PortMsg.wsOpenReq "ws://localhost:8080/a" (some "id1"),
   PortMsg.wsOpenReq "ws://localhost:8080/b" (some "id2")]

def scenConn1 : WSConnection :=
  (WSConnection.init "id1" "ws://localhost:8080/a" 7).connectStep.1

/-- Session after both opens and the second connection's transport
succeeding. -/
def scenSession : PortSession :=
  let s2 := (runPort (PortSession.fresh 7) scenMsgs).1
  { s2 with manager := (s2.manager.transportOpen "id2").1 }

-- ---------------------------------------------------------------------------
-- Theorems
-- ---------------------------------------------------------------------------

/-- C2 (claim as stated is false): the spec's own scenario instance — the
allow-list `["http://localhost"]` (which contains `http://localhost`) with
target `ws://localhost:8080/chat` — is rejected by the code's check, because
the computed origin `ws://localhost` matches no entry: the scheme must match
too. -/
theorem c2_scenario_counterexample :
    isAllowedUrlWith ["http://localhost"] "ws://localhost:8080/chat" = false := by
  decide

/-- C2 (amended): `isAllowedUrl` rejects every unparseable URL, and accepts a
parseable one exactly when its `scheme//hostname` origin (port and path
discarded) equals a configured allowed origin or extends one past a colon;
`ws://localhost:8080/chat` is accepted against the configured list (which
also contains `ws://localhost`) and `ws://evil.example.com` is rejected. -/
theorem c2_allowlist_amended :
    (∀ u, parseURL u = none → isAllowedUrl u = false) ∧
    (∀ u pu, parseURL u = some pu →
      (isAllowedUrl u = true ↔ ∃ a ∈ ALLOWED_ORIGINS,
        pu.protocol ++ "//" ++ pu.hostname = a ∨
          strStartsWith (pu.protocol ++ "//" ++ pu.hostname) (a ++ ":") = true)) ∧
    isAllowedUrl "ws://localhost:8080/chat" = true ∧
    isAllowedUrl "ws://evil.example.com" = false := by
  refine ⟨?_, ?_, by decide, by decide⟩
  · intro u h
    simp [isAllowedUrl, isAllowedUrlWith, h]
  · intro u pu h
    simp [isAllowedUrl, isAllowedUrlWith, h, List.any_eq_true]

/-- Witness for the amended C2: a URL with an empty scheme does not parse and
is rejected. -/
theorem c2_allowlist_amended_witness : isAllowedUrl "://nohost" = false :=
  c2_allowlist_amended.1 "://nohost" (by decide)

/-- C4: an open request whose target URL fails the access check produces
exactly one error event, leaves the whole port session (in particular the
registry) unchanged, performs no transport effect and destroys nothing. -/
theorem c4_policy_violation (s : PortSession) (url : String)
    (connId : Option String) (h : isAllowedUrl url = false) :
    handlePortMsg s (PortMsg.wsOpenReq url connId) =
      (s,
       [BgEvent.wsEvError
          ("URL not allowed: " ++ url ++ ". Only localhost URLs are permitted.")],
       [], []) := by
  simp [handlePortMsg, h]

/-- Witness for C4 at the spec's own rejected scenario URL. -/
theorem c4_policy_violation_witness :
    isAllowedUrl "ws://evil.example.com" = false ∧
    handlePortMsg (PortSession.fresh 0)
        (PortMsg.wsOpenReq "ws://evil.example.com" (some "c1")) =
      (PortSession.fresh 0,
       [BgEvent.wsEvError
          ("URL not allowed: " ++ "ws://evil.example.com" ++
            ". Only localhost URLs are permitted.")],
       [], []) :=
  ⟨by decide, c4_policy_violation (PortSession.fresh 0) "ws://evil.example.com"
      (some "c1") (by decide)⟩

/-- C5: `send` while the adapter's local state is not OPEN fails
synchronously with an invalid-state error and posts no outbound message;
while OPEN it posts exactly one WS_SEND carrying the payload unchanged. -/
theorem c5_send_requires_open (ws : AgentWebSocket) (d : Payload) :
    (ws.readyState ≠ 1 → ws.send d = Except.error "InvalidStateError") ∧
    (ws.readyState = 1 →
      ws.send d = Except.ok [ClientMsg.wsSendMsg ws.connectionId d]) := by
  constructor
  · intro h; simp [AgentWebSocket.send, h]
  · intro h; simp [AgentWebSocket.send, h]

/-- Witness for C5: a CONNECTING adapter rejects the send, an OPEN one
forwards it unchanged. -/
theorem c5_send_requires_open_witness :
    (AgentWebSocket.send
        { readyState := 0, connectionId := "w", url := "u", handlerActive := true }
        (Payload.text "hello") = Except.error "InvalidStateError") ∧
    (AgentWebSocket.send
        { readyState := 1, connectionId := "w", url := "u", handlerActive := true }
        (Payload.text "hello") =
      Except.ok [ClientMsg.wsSendMsg "w" (Payload.text "hello")]) :=
  ⟨(c5_send_requires_open
      { readyState := 0, connectionId := "w", url := "u", handlerActive := true }
      (Payload.text "hello")).1 (by decide),
   (c5_send_requires_open
      { readyState := 1, connectionId := "w", url := "u", handlerActive := true }
      (Payload.text "hello")).2 rfl⟩

/-- C6: `close` is idempotent at the client boundary: a second `close`
invocation (immediately after a first, or after a close event has been
delivered) is a no-op — it changes no state and posts nothing. -/
theorem c6_close_idempotent (ws : AgentWebSocket) (c c2 : Option Nat)
    (r r2 : Option String) (ev : InEvent) :
    (((ws.close c r).1.close c2 r2).1 = (ws.close c r).1 ∧
      ((ws.close c r).1.close c2 r2).2 = []) ∧
    ((∃ cb ∈ (ws.handleEvent ev).2, isCloseCb cb = true) →
      ((ws.handleEvent ev).1.close c2 r2).1 = (ws.handleEvent ev).1 ∧
      ((ws.handleEvent ev).1.close c2 r2).2 = []) := by
  constructor
  · by_cases h : ws.readyState = 3 ∨ ws.readyState = 2 <;>
      simp [AgentWebSocket.close, h]
  · rintro ⟨cb, hmem, hclose⟩
    obtain ⟨cid, body⟩ := ev
    cases hact : ws.handlerActive with
    | false => simp [AgentWebSocket.handleEvent, hact] at hmem
    | true =>
      by_cases hid : cid = ws.connectionId
      · cases body with
        | evOpen =>
          simp [AgentWebSocket.handleEvent, hact, hid, isCloseCb] at hmem hclose
          subst hmem
          simp [isCloseCb] at hclose
        | evMessage d =>
          simp [AgentWebSocket.handleEvent, hact, hid, isCloseCb] at hmem hclose
          subst hmem
          simp [isCloseCb] at hclose
        | evError =>
          simp [AgentWebSocket.handleEvent, hact, hid, isCloseCb] at hmem hclose
          subst hmem
          simp [isCloseCb] at hclose
        | evClose code reason wasClean =>
          simp [AgentWebSocket.handleEvent, hact, hid, AgentWebSocket.close]
        | other =>
          simp [AgentWebSocket.handleEvent, hact, hid] at hmem
      · simp [AgentWebSocket.handleEvent, hact, hid] at hmem

/-- Witness for C6: a concrete OPEN adapter that has just received a close
event; closing it afterwards is a no-op. -/
theorem c6_close_idempotent_witness :
    ((AgentWebSocket.handleEvent
        { readyState := 1, connectionId := "w", url := "u", handlerActive := true }
        ⟨"w", InEventType.evClose none none none⟩).1.close none none).1 =
      (AgentWebSocket.handleEvent
        { readyState := 1, connectionId := "w", url := "u", handlerActive := true }
        ⟨"w", InEventType.evClose none none none⟩).1 ∧
    ((AgentWebSocket.handleEvent
        { readyState := 1, connectionId := "w", url := "u", handlerActive := true }
        ⟨"w", InEventType.evClose none none none⟩).1.close none none).2 = [] := by
  exact (c6_close_idempotent
    { readyState := 1, connectionId := "w", url := "u", handlerActive := true }
    none none none none ⟨"w", InEventType.evClose none none none⟩).2
    ⟨Callback.cbClose 1000 "" true, by decide, by decide⟩

-- ---------------------------------------------------------------------------
-- Backoff lemmas (C1, C3)
-- ---------------------------------------------------------------------------

theorem failCycle_openedConn (id url : String) (p : Nat) :
    failCycle (openedConn id url p) =
      (connAt id url p 1,
       [BgEvent.wsEvReconnecting 1 (reconnectDelay 1) MAX_RECONNECT_ATTEMPTS]) :=
  rfl

theorem failCycle_connAt (id url : String) (p k : Nat) (h : k < 10) :
    failCycle (connAt id url p k) =
      (connAt id url p (k + 1),
       [BgEvent.wsEvReconnecting (k + 1) (reconnectDelay (k + 1))
          MAX_RECONNECT_ATTEMPTS]) := by
  have h2 : ¬ k ≥ MAX_RECONNECT_ATTEMPTS := by
    simp [MAX_RECONNECT_ATTEMPTS]; omega
  simp [failCycle, connAt, WSConnection.onClose, WSConnection.reconnectStep,
        WSConnection.fireReconnectTimer, WSConnection.connectStep, h2]

theorem failCycles_connAt (id url : String) (p : Nat) :
    ∀ n k, k + n ≤ 10 →
      failCycles n (connAt id url p k) =
        (connAt id url p (k + n),
         (List.range' (k + 1) n).map
           (fun j => BgEvent.wsEvReconnecting j (reconnectDelay j)
              MAX_RECONNECT_ATTEMPTS)) := by
  intro n
  induction n with
  | zero => intro k h; simp [failCycles]
  | succ n ih =>
    intro k h
    have hk : k < 10 := by omega
    have hrec := ih (k + 1) (by omega)
    have harith : k + 1 + n = k + (n + 1) := by omega
    rw [harith] at hrec
    simp [failCycles, failCycle_connAt id url p k hk, hrec, List.range']

/-- Events of `n ≤ 10` consecutive abnormal closes from a freshly opened
connection: one reconnecting event per close, delays following the
backoff schedule, and nothing else. -/
theorem failCycles_openedConn (id url : String) (p n : Nat)
    (h1 : 1 ≤ n) (h2 : n ≤ 10) :
    failCycles n (openedConn id url p) =
      (connAt id url p n,
       (List.range' 1 n).map
         (fun j => BgEvent.wsEvReconnecting j (reconnectDelay j)
            MAX_RECONNECT_ATTEMPTS)) := by
  obtain ⟨m, rfl⟩ : ∃ m, n = m + 1 := ⟨n - 1, by omega⟩
  have hrec := failCycles_connAt id url p m 1 (by omega)
  have harith : 1 + m = m + 1 := by omega
  rw [harith] at hrec
  simp [failCycles, failCycle_openedConn, hrec, List.range']

/-- C3: on the `N`-th consecutive abnormal close (within the attempt budget)
the emitted reconnecting event carries delay `min(1000 × 2^N, 30000)`; in
particular attempts 1..6 yield 2000, 4000, 8000, 16000, 30000, 30000 ms. -/
theorem c3_backoff_schedule (id url : String) (p N : Nat)
    (h1 : 1 ≤ N) (h2 : N ≤ MAX_RECONNECT_ATTEMPTS) :
    (failCycles N (openedConn id url p)).2 =
      (List.range' 1 N).map
        (fun j => BgEvent.wsEvReconnecting j (min (1000 * 2 ^ j) 30000)
           MAX_RECONNECT_ATTEMPTS) ∧
    (failCycles 6 (openedConn id url p)).2 =
      [BgEvent.wsEvReconnecting 1 2000 10, BgEvent.wsEvReconnecting 2 4000 10,
       BgEvent.wsEvReconnecting 3 8000 10, BgEvent.wsEvReconnecting 4 16000 10,
       BgEvent.wsEvReconnecting 5 30000 10, BgEvent.wsEvReconnecting 6 30000 10] := by
  constructor
  · rw [failCycles_openedConn id url p N h1 (by simpa [MAX_RECONNECT_ATTEMPTS] using h2)]
    simp [reconnectDelay, MAX_RECONNECT_DELAY_MS]
  · rw [failCycles_openedConn id url p 6 (by omega) (by omega)]
    simp [reconnectDelay, MAX_RECONNECT_DELAY_MS, MAX_RECONNECT_ATTEMPTS,
          List.range']

/-- Witness for C3 at `N = 5`. -/
theorem c3_backoff_schedule_witness :
    (failCycles 5 (openedConn "c1" "ws://localhost:8080/chat" 0)).2 =
      (List.range' 1 5).map
        (fun j => BgEvent.wsEvReconnecting j (min (1000 * 2 ^ j) 30000)
           MAX_RECONNECT_ATTEMPTS) :=
  (c3_backoff_schedule "c1" "ws://localhost:8080/chat" 0 5 (by decide) (by decide)).1

/-- C1 (claim as stated is false): after exactly `maxAttempts = 10`
consecutive abnormal closes the connection has emitted no close event at
all — the tenth close still schedules a retry (attempt counter now 10) —
and a subsequent transport success IS observed: the connection emits
RECONNECTED. -/
theorem c1_exhaustion_counterexample :
    (failCycles 10 (openedConn "c1" "ws://localhost:8080/chat" 0)).2.all
        (fun e => !isCloseEv e) = true ∧
    (failCycles 10 (openedConn "c1" "ws://localhost:8080/chat" 0)).1.reconnectAttempts
        = MAX_RECONNECT_ATTEMPTS ∧
    ((failCycles 10 (openedConn "c1" "ws://localhost:8080/chat" 0)).1.onOpen).2 =
      [BgEvent.wsEvReconnected] := by
  refine ⟨by decide, by decide, by decide⟩

/-- C1 (amended): the terminal close arrives on the `(maxAttempts + 1)`-th
consecutive abnormal close — once the `maxAttempts`-th scheduled retry has
itself failed.  Exactly one close event is emitted, with the synthetic
abnormal code 1006, `wasClean = false` and a reason naming the attempt
ceiling; it is the last event, the connection is CLOSED, and no reconnect
timer or socket remains. -/
theorem c1_exhaustion_amended (id url : String) (p : Nat) :
    (failCycles (MAX_RECONNECT_ATTEMPTS + 1) (openedConn id url p)).2.filter isCloseEv =
      [BgEvent.wsEvClose 1006 (maxReconnectReason MAX_RECONNECT_ATTEMPTS) false] ∧
    (failCycles (MAX_RECONNECT_ATTEMPTS + 1) (openedConn id url p)).2.getLast? =
      some (BgEvent.wsEvClose 1006 (maxReconnectReason MAX_RECONNECT_ATTEMPTS) false) ∧
    (failCycles (MAX_RECONNECT_ATTEMPTS + 1) (openedConn id url p)).1.status =
      ConnStatus.CLOSED ∧
    (failCycles (MAX_RECONNECT_ATTEMPTS + 1) (openedConn id url p)).1.reconnectTimer =
      none ∧
    (failCycles (MAX_RECONNECT_ATTEMPTS + 1) (openedConn id url p)).1.socket = false :=
  ⟨rfl, rfl, rfl, rfl, rfl⟩

-- ---------------------------------------------------------------------------
-- Event-ordering lemmas (C7)
-- ---------------------------------------------------------------------------

theorem handleEvent_inactive (ws : AgentWebSocket) (ev : InEvent)
    (h : ws.handlerActive = false) : ws.handleEvent ev = (ws, []) := by
  simp [AgentWebSocket.handleEvent, h]

theorem deliverEvents_inactive (ws : AgentWebSocket) (evs : List InEvent)
    (h : ws.handlerActive = false) : deliverEvents ws evs = (ws, []) := by
  induction evs with
  | nil => rfl
  | cons ev rest ih => simp [deliverEvents, handleEvent_inactive ws ev h, ih]

/-- Each event delivery either invokes no close callback, or invokes exactly
a close callback and deactivates the listener. -/
theorem handleEvent_close_shape (ws : AgentWebSocket) (ev : InEvent) :
    (ws.handleEvent ev).2.all (fun cb => !isCloseCb cb) = true ∨
    ((ws.handleEvent ev).1.handlerActive = false ∧
      ∃ c r w, (ws.handleEvent ev).2 = [Callback.cbClose c r w]) := by
  obtain ⟨cid, body⟩ := ev
  cases hact : ws.handlerActive with
  | false => left; simp [AgentWebSocket.handleEvent, hact]
  | true =>
    by_cases hid : cid = ws.connectionId
    · cases body with
      | evClose code reason wasClean =>
        right
        refine ⟨?_, jsOrNat code 1000, jsOrString reason "", wasClean.getD true, ?_⟩ <;>
          simp [AgentWebSocket.handleEvent, hact, hid]
      | evOpen => left; simp [AgentWebSocket.handleEvent, hact, hid, isCloseCb]
      | evMessage d => left; simp [AgentWebSocket.handleEvent, hact, hid, isCloseCb]
      | evError => left; simp [AgentWebSocket.handleEvent, hact, hid, isCloseCb]
      | other => left; simp [AgentWebSocket.handleEvent, hact, hid]
    · left; simp [AgentWebSocket.handleEvent, hact, hid]

theorem closeIsLast_append_of_none (l1 l2 : List Callback)
    (h1 : l1.all (fun cb => !isCloseCb cb) = true)
    (h2 : closeIsLast l2 = true) : closeIsLast (l1 ++ l2) = true := by
  induction l1 with
  | nil => simpa using h2
  | cons c cs ih =>
    simp only [List.all_cons, Bool.and_eq_true] at h1
    simp only [List.cons_append, closeIsLast, Bool.and_eq_true]
    exact ⟨by simp [h1.1], ih h1.2⟩

/-- C7: for every adapter state and every stream of inbound window events,
no callback is ever invoked after a close callback: the close event is the
last event delivered for its connection-id. -/
theorem c7_close_terminal (ws : AgentWebSocket) (evs : List InEvent) :
    closeIsLast (deliverEvents ws evs).2 = true := by
  induction evs generalizing ws with
  | nil => rfl
  | cons ev rest ih =>
    have hstep : deliverEvents ws (ev :: rest) =
        ((deliverEvents (ws.handleEvent ev).1 rest).1,
         (ws.handleEvent ev).2 ++ (deliverEvents (ws.handleEvent ev).1 rest).2) := by
      simp [deliverEvents]
    rw [hstep]
    rcases handleEvent_close_shape ws ev with hnone | ⟨hinact, c, r, w, hcbs⟩
    · exact closeIsLast_append_of_none _ _ hnone (ih (ws.handleEvent ev).1)
    · rw [hcbs, deliverEvents_inactive _ rest hinact]
      simp [closeIsLast, isCloseCb]

-- ---------------------------------------------------------------------------
-- Registry lemmas (C8, C9, C10)
-- ---------------------------------------------------------------------------

theorem lookup_setConn_self (l : List (String × WSConnection)) (id : String)
    (c : WSConnection) : (setConn l id c).lookup id = some c := by
  induction l with
  | nil => simp [setConn, List.lookup]
  | cons kv rest ih =>
    obtain ⟨k, v⟩ := kv
    by_cases h : k = id
    · simp [setConn, h, List.lookup]
    · have hbeq : (id == k) = false := by
        simp [beq_iff_eq]
        exact fun h2 => h h2.symm
      simp [setConn, h, List.lookup, hbeq, ih]

theorem lookup_setConn_ne (l : List (String × WSConnection)) (id j : String)
    (c : WSConnection) (h : j ≠ id) :
    (setConn l id c).lookup j = l.lookup j := by
  induction l with
  | nil =>
    have hbeq : (j == id) = false := by simp [beq_iff_eq, h]
    simp [setConn, List.lookup, hbeq]
  | cons kv rest ih =>
    obtain ⟨k, v⟩ := kv
    by_cases hk : k = id
    · subst hk
      have hbeq : (j == k) = false := by simp [beq_iff_eq, h]
      simp [setConn, List.lookup, hbeq]
    · cases hjk : (j == k) <;> simp [setConn, hk, List.lookup, hjk, ih]

theorem keys_setConn_mem (l : List (String × WSConnection)) (id : String)
    (c : WSConnection) (h : id ∈ l.map Prod.fst) :
    (setConn l id c).map Prod.fst = l.map Prod.fst := by
  induction l with
  | nil => simp at h
  | cons kv rest ih =>
    obtain ⟨k, v⟩ := kv
    by_cases hk : k = id
    · simp [setConn, hk]
    · have h2 : id ∈ k :: rest.map Prod.fst := by rw [List.map_cons] at h; exact h
      have hmem : id ∈ rest.map Prod.fst := by
        rcases List.mem_cons.mp h2 with h3 | h3
        · exact absurd h3.symm hk
        · exact h3
      simp [setConn, hk, ih hmem]

theorem keys_setConn_not_mem (l : List (String × WSConnection)) (id : String)
    (c : WSConnection) (h : id ∉ l.map Prod.fst) :
    (setConn l id c).map Prod.fst = l.map Prod.fst ++ [id] := by
  induction l with
  | nil => simp [setConn]
  | cons kv rest ih =>
    obtain ⟨k, v⟩ := kv
    have hk : k ≠ id := fun h2 => h (by simp [h2])
    have hr : id ∉ rest.map Prod.fst := fun hm => h (by simp [hm])
    simp [setConn, hk, ih hr]

theorem delConn_sublist (l : List (String × WSConnection)) (id : String) :
    List.Sublist (delConn l id) l := by
  induction l with
  | nil => simp [delConn]
  | cons kv rest ih =>
    obtain ⟨k, v⟩ := kv
    by_cases hk : k = id
    · simp only [delConn, if_pos hk]
      exact List.Sublist.cons (k, v) (List.Sublist.refl rest)
    · simpa [delConn, hk] using List.Sublist.cons₂ (k, v) ih

theorem mem_keys_of_lookup (l : List (String × WSConnection)) (j : String)
    (v : WSConnection) (h : l.lookup j = some v) : j ∈ l.map Prod.fst := by
  induction l with
  | nil => simp [List.lookup] at h
  | cons kv rest ih =>
    obtain ⟨k, w⟩ := kv
    cases hjk : (j == k) with
    | true =>
      have : j = k := by simpa [beq_iff_eq] using hjk
      simp [this]
    | false =>
      simp only [List.lookup, hjk] at h
      simp [ih h]

theorem lookup_eq_none_of_not_mem (l : List (String × WSConnection))
    (j : String) (h : j ∉ l.map Prod.fst) : l.lookup j = none := by
  induction l with
  | nil => rfl
  | cons kv rest ih =>
    obtain ⟨k, v⟩ := kv
    have hjk : (j == k) = false := by
      simp [beq_iff_eq]
      exact fun h2 => h (by simp [h2])
    have hr : j ∉ rest.map Prod.fst := fun hm => h (by simp [hm])
    simp [List.lookup, hjk, ih hr]

theorem lookup_delConn_ne (l : List (String × WSConnection)) (id j : String)
    (h : j ≠ id) : (delConn l id).lookup j = l.lookup j := by
  induction l with
  | nil => rfl
  | cons kv rest ih =>
    obtain ⟨k, v⟩ := kv
    by_cases hk : k = id
    · subst hk
      have hbeq : (j == k) = false := by simp [beq_iff_eq, h]
      simp [delConn, List.lookup, hbeq]
    · cases hjk : (j == k) <;> simp [delConn, hk, List.lookup, hjk, ih]

theorem lookup_delConn_self (l : List (String × WSConnection)) (id : String)
    (h : (l.map Prod.fst).Nodup) : (delConn l id).lookup id = none := by
  induction l with
  | nil => rfl
  | cons kv rest ih =>
    obtain ⟨k, v⟩ := kv
    have h2 : (k :: rest.map Prod.fst).Nodup := by rw [List.map_cons] at h; exact h
    have hpair := List.nodup_cons.mp h2
    by_cases hk : k = id
    · subst hk
      have hdel : delConn ((k, v) :: rest) k = rest := by simp [delConn]
      rw [hdel]
      exact lookup_eq_none_of_not_mem rest k hpair.1
    · have hbeq : (id == k) = false := by
        simp [beq_iff_eq]
        exact fun h3 => hk h3.symm
      simp only [delConn, if_neg hk, List.lookup, hbeq]
      exact ih hpair.2

theorem destroyStep_events (c : WSConnection) : c.destroyStep.2.1 = [] := rfl

theorem destroyByPortList_eq (l : List (String × WSConnection)) (p : Nat) :
    destroyByPortList l p =
      (l.filter (fun e => !(e.2.port == p)),
       (l.filter (fun e => e.2.port == p)).map (fun e => e.2.destroyStep.1),
       [],
       ((l.filter (fun e => e.2.port == p)).map
          (fun e => e.2.destroyStep.2.2)).flatten) := by
  induction l with
  | nil => rfl
  | cons kv rest ih =>
    obtain ⟨k, v⟩ := kv
    by_cases h : v.port = p <;>
      simp [destroyByPortList, ih, h, destroyStep_events]

/-- C8: the registry keeps at most one live Connection per connection-id.
`connect(id, url, port)` registers exactly the freshly created, freshly
started Connection under `id`; when a Connection with that id already
existed it is destroyed first (replace, not merge), otherwise nothing is
destroyed; and key-uniqueness of the registry is preserved by `connect`,
`disconnect`, `send` and `destroyByPort`. -/
theorem c8_registry_replace (m : WebSocketManager) (id url : String)
    (p : Nat) (code : Nat) (reason : String) (d : Payload) :
    ((m.connect id url p).1.connections.lookup id =
      some ((WSConnection.init id url p).connectStep.1)) ∧
    (keysNodup m → keysNodup (m.connect id url p).1) ∧
    (∀ old, m.connections.lookup id = some old →
      (m.connect id url p).2.1 = [old.destroyStep.1]) ∧
    (m.connections.lookup id = none → (m.connect id url p).2.1 = []) ∧
    (keysNodup m → keysNodup (m.disconnect id code reason).1) ∧
    (keysNodup m → keysNodup (m.send id d).1) ∧
    (keysNodup m → keysNodup (m.destroyByPort p).1) := by
  refine ⟨?_, ?_, ?_, ?_, ?_, ?_, ?_⟩
  · cases hl : m.connections.lookup id <;>
      simp [WebSocketManager.connect, hl, lookup_setConn_self]
  · intro hnd
    have hkeys : ∀ c : WSConnection,
        ((setConn m.connections id c).map Prod.fst).Nodup := by
      intro c
      by_cases hmem : id ∈ m.connections.map Prod.fst
      · rw [keys_setConn_mem _ _ _ hmem]; exact hnd
      · rw [keys_setConn_not_mem _ _ _ hmem]
        simp [List.nodup_append, hnd, hmem]
    cases hl : m.connections.lookup id <;>
      simpa [WebSocketManager.connect, hl, keysNodup] using hkeys _
  · intro old hl
    simp [WebSocketManager.connect, hl]
  · intro hl
    simp [WebSocketManager.connect, hl]
  · intro hnd
    cases hl : m.connections.lookup id with
    | none => simpa [WebSocketManager.disconnect, hl] using hnd
    | some c =>
      have hsub : List.Sublist ((delConn m.connections id).map Prod.fst)
          (m.connections.map Prod.fst) := (delConn_sublist m.connections id).map Prod.fst
      simpa [WebSocketManager.disconnect, hl, keysNodup] using hsub.nodup hnd
  · intro hnd
    cases hl : m.connections.lookup id with
    | none => simpa [WebSocketManager.send, hl] using hnd
    | some c =>
      have hmem : id ∈ m.connections.map Prod.fst :=
        mem_keys_of_lookup m.connections id c hl
      simpa [WebSocketManager.send, hl, keysNodup, WSConnection.sendStep,
             keys_setConn_mem m.connections id _ hmem] using hnd
  · intro hnd
    have hsub : List.Sublist
        ((m.connections.filter (fun e => !(e.2.port == p))).map Prod.fst)
        (m.connections.map Prod.fst) :=
      (List.filter_sublist m.connections).map Prod.fst
    simpa [WebSocketManager.destroyByPort, destroyByPortList_eq, keysNodup]
      using hsub.nodup hnd

/-- Witness for C8: reopening id `"a"` on `m0` keeps keys unique, destroys
exactly the prior Connection, and registers the fresh one. -/
theorem c8_registry_replace_witness :
    keysNodup (m0.connect "a" "ws://localhost:2" 0).1 ∧
    (m0.connect "a" "ws://localhost:2" 0).2.1 =
      [((WSConnection.init "a" "ws://localhost:1" 0).connectStep.1).destroyStep.1] ∧
    (m0.connect "a" "ws://localhost:2" 0).1.connections.lookup "a" =
      some ((WSConnection.init "a" "ws://localhost:2" 0).connectStep.1) :=
  ⟨(c8_registry_replace m0 "a" "ws://localhost:2" 0 1000 "" (Payload.text "x")).2.1
      (by decide),
   (c8_registry_replace m0 "a" "ws://localhost:2" 0 1000 "" (Payload.text "x")).2.2.1
      ((WSConnection.init "a" "ws://localhost:1" 0).connectStep.1) (by decide),
   (c8_registry_replace m0 "a" "ws://localhost:2" 0 1000 "" (Payload.text "x")).1⟩

/-- C9: `destroyByPort` removes exactly the Connections bound to the given
port (the registry afterwards is the original list with those entries
dropped, all other entries unchanged and in order), emits no event at all,
and every removed Connection is force-destroyed: CLOSED, timers cleared,
socket released, reconnection suppressed. -/
theorem c9_destroy_by_channel (m : WebSocketManager) (p : Nat) :
    (m.destroyByPort p).1.connections =
      m.connections.filter (fun e => !(e.2.port == p)) ∧
    (m.destroyByPort p).2.2.1 = [] ∧
    (m.destroyByPort p).2.1 =
      (m.connections.filter (fun e => e.2.port == p)).map
        (fun e => e.2.destroyStep.1) ∧
    (m.destroyByPort p).2.1.all
      (fun d2 => d2.status == ConnStatus.CLOSED && d2.reconnectTimer == none &&
        d2.heartbeatTimer == false && d2.shouldReconnect == false &&
        d2.socket == false) = true := by
  refine ⟨?_, ?_, ?_, ?_⟩
  · simp [WebSocketManager.destroyByPort, destroyByPortList_eq]
  · simp [WebSocketManager.destroyByPort, destroyByPortList_eq]
  · simp [WebSocketManager.destroyByPort, destroyByPortList_eq]
  · simp only [WebSocketManager.destroyByPort, destroyByPortList_eq]
    rw [List.all_eq_true]
    intro d2 hd2
    rw [List.mem_map] at hd2
    obtain ⟨e, he, rfl⟩ := hd2
    rfl

-- ---------------------------------------------------------------------------
-- Port-routing lemmas (C10)
-- ---------------------------------------------------------------------------

/-- The evolution of `activeConnectionId` depends only on the message list:
it is the effective id of the most recent allowed WS_OPEN, cleared again by
WS_CLOSE. -/
theorem runPort_activeId (msgs : List PortMsg) :
    ∀ s : PortSession,
      (runPort s msgs).1.activeConnectionId =
        activeIdAfter s.activeConnectionId s.now msgs := by
  induction msgs with
  | nil => intro s; rfl
  | cons msg rest ih =>
    intro s
    cases msg with
    | ping => simpa [runPort, handlePortMsg, activeIdAfter] using ih _
    | wsOpenReq url cid =>
      by_cases hall : isAllowedUrl url = true
      · simpa [runPort, handlePortMsg, hall, activeIdAfter] using ih _
      · have hall2 : isAllowedUrl url = false := by
          cases hu : isAllowedUrl url
          · rfl
          · exact absurd hu hall
        simpa [runPort, handlePortMsg, hall2, activeIdAfter] using ih _
    | wsSendReq d =>
      cases hact : s.activeConnectionId <;>
        simpa [runPort, handlePortMsg, hact, activeIdAfter] using ih _
    | wsCloseReq code reason =>
      cases hact : s.activeConnectionId <;>
        simpa [runPort, handlePortMsg, hact, activeIdAfter] using ih _

theorem handleSend_frame (s : PortSession) (i j : String) (d : Payload)
    (hact : s.activeConnectionId = some i) (hij : j ≠ i) :
    (handlePortMsg s (PortMsg.wsSendReq d)).1.manager.connections.lookup j =
      s.manager.connections.lookup j := by
  cases hl : s.manager.connections.lookup i with
  | none => simp [handlePortMsg, hact, WebSocketManager.send, hl]
  | some c =>
    simp [handlePortMsg, hact, WebSocketManager.send, hl,
          lookup_setConn_ne _ _ _ _ hij]

theorem handleClose_frame (s : PortSession) (i j : String)
    (code : Option Nat) (reason : Option String)
    (hact : s.activeConnectionId = some i) (hij : j ≠ i) :
    (handlePortMsg s (PortMsg.wsCloseReq code reason)).1.manager.connections.lookup j =
      s.manager.connections.lookup j := by
  cases hl : s.manager.connections.lookup i with
  | none => simp [handlePortMsg, hact, WebSocketManager.disconnect, hl]
  | some c =>
    simp [handlePortMsg, hact, WebSocketManager.disconnect, hl,
          lookup_delConn_ne _ _ _ hij]

theorem handleClose_removes (s : PortSession) (i : String)
    (code : Option Nat) (reason : Option String)
    (hact : s.activeConnectionId = some i) (hnd : keysNodup s.manager) :
    (handlePortMsg s (PortMsg.wsCloseReq code reason)).1.manager.connections.lookup i =
      none := by
  cases hl : s.manager.connections.lookup i with
  | none => simp [handlePortMsg, hact, WebSocketManager.disconnect, hl]
  | some c =>
    simp [handlePortMsg, hact, WebSocketManager.disconnect, hl,
          lookup_delConn_self _ _ hnd]

/-- C10: the per-port handler tracks a single `activeConnectionId`: after a
run of port messages it equals the effective id of the most recent allowed
WS_OPEN (cleared by WS_CLOSE); WS_SEND and WS_CLOSE act only on that id,
leaving every other registered connection untouched; and in the concrete
two-open scenario the earlier id `"id1"` stays registered but receives
neither the send (which reaches `"id2"`) nor the close (which removes only
`"id2"`). -/
theorem c10_port_routing (s : PortSession) (msgs : List PortMsg)
    (i j : String) (d : Payload) (code : Option Nat)
    (reason : Option String) :
    ((runPort s msgs).1.activeConnectionId =
      activeIdAfter s.activeConnectionId s.now msgs) ∧
    (s.activeConnectionId = some i → j ≠ i →
      (handlePortMsg s (PortMsg.wsSendReq d)).1.manager.connections.lookup j =
        s.manager.connections.lookup j ∧
      (handlePortMsg s (PortMsg.wsCloseReq code reason)).1.manager.connections.lookup j =
        s.manager.connections.lookup j) ∧
    (s.activeConnectionId = some i → keysNodup s.manager →
      (handlePortMsg s (PortMsg.wsCloseReq code reason)).1.manager.connections.lookup i =
        none) ∧
    (scenSession.activeConnectionId = some "id2" ∧
     scenSession.manager.connections.lookup "id1" = some scenConn1 ∧
     (handlePortMsg scenSession (PortMsg.wsSendReq (Payload.text "x"))).2.2.1 =
       [Effect.socketSend (Payload.text "x")] ∧
     (handlePortMsg scenSession (PortMsg.wsSendReq (Payload.text "x"))).1.manager.connections.lookup "id1" =
       some scenConn1 ∧
     (handlePortMsg scenSession (PortMsg.wsCloseReq none none)).1.manager.connections.lookup "id1" =
       some scenConn1 ∧
     (handlePortMsg scenSession (PortMsg.wsCloseReq none none)).1.manager.connections.lookup "id2" =
       none ∧
     (handlePortMsg scenSession (PortMsg.wsCloseReq none none)).1.activeConnectionId =
       none) := by
  refine ⟨runPort_activeId msgs s, ?_, ?_, ?_⟩
  · intro hact hij
    exact ⟨handleSend_frame s i j d hact hij,
           handleClose_frame s i j code reason hact hij⟩
  · intro hact hnd
    exact handleClose_removes s i code reason hact hnd
  · refine ⟨by decide, by decide, by decide, by decide, by decide, by decide,
      by decide⟩

/-- Witness for C10 at the concrete scenario session: closing via the port
removes only the most recently opened id. -/
theorem c10_port_routing_witness :
    (handlePortMsg scenSession (PortMsg.wsSendReq (Payload.text "y"))).1.manager.connections.lookup "id1" =
      scenSession.manager.connections.lookup "id1" ∧
    (handlePortMsg scenSession (PortMsg.wsCloseReq none none)).1.manager.connections.lookup "id2" =
      none :=
  ⟨((c10_port_routing scenSession [] "id2" "id1" (Payload.text "y") none none).2.1
      (by decide) (by decide)).1,
   (c10_port_routing scenSession [] "id2" "id1" (Payload.text "y") none none).2.2.1
      (by decide) (by decide)⟩

end StompRelay
